import Mathlib

/-!
Verification of the budget-pacing and classification engine of
`budget_tracker.py` (class `BudgetTracker`).

The Python source is shallowly embedded: monetary amounts and the year
progress are rationals (`ℚ`), the display columns of `display_analysis`
are abstracted into the five pacing statuses of the specification
(a category skipped by `is_category_active` is `NoActivity`; a
zero-budget category with spending, placed in the over-budget column,
is `UnbudgetedSpending`), fallible Python code (division, `float(...)`
parsing, `KeyError` on missing columns) is embedded through `Option`.
-/

namespace BudgetTracker

/-- The five pacing statuses of a category. -/
inductive Status where
  | OverBudget
  | OnTrack
  | UnderSpending
  | UnbudgetedSpending
  | NoActivity
deriving DecidableEq, Repr

/-- `display_analysis.is_category_active` (line 200): a category is shown
only when it has a positive budget or positive spending. -/
def is_category_active (budget spent : ℚ) : Prop :=
  budget > 0 ∨ spent > 0

instance (budget spent : ℚ) : Decidable (is_category_active budget spent) := by
  unfold is_category_active
  infer_instance

/-- The classification branch of `display_analysis` (lines 200-230), on the
absolute values `budget` and `spent`.  An inactive category is skipped by the
`continue` (status `NoActivity`); with `budget == 0` a spending category goes
to the over-budget column (status `UnbudgetedSpending`); otherwise the
hysteresis bands around `expected_spend = budget * year_progress` decide. -/
def classify (budget spent year_progress : ℚ) : Status :=
  if is_category_active budget spent then
    if budget = 0 then
      if spent > 0 then Status.UnbudgetedSpending else Status.OnTrack
    else
      let expected_spend := budget * year_progress
      if spent > expected_spend * 1.1 then Status.OverBudget
      else if spent < expected_spend * 0.9 then Status.UnderSpending
      else Status.OnTrack
  else Status.NoActivity

/-- Guarded division: `none` exactly when the Python `/` would divide by 0. -/
def div? (a b : ℚ) : Option ℚ :=
  if b = 0 then none else some (a / b)

/-- `spent_percent` (lines 212-215): the division by `budget` happens only in
the branch where `budget > 0`. -/
def spent_percent? (budget spent : ℚ) : Option ℚ :=
  if budget > 0 then (div? spent budget).map (fun q => q * 100)
  else some (if spent > 0 then 100 else 0)

/-- Per-category figures produced by one pass of `display_analysis`. -/
structure ClassificationResult where
  expected_spend : ℚ
  status : Status
  spent_percent : ℚ
deriving DecidableEq, Repr

/-- One full per-category pass of `display_analysis` (lines 203-230):
`none` would mean a raised exception (a division by zero). -/
def classifyResult (budget spent year_progress : ℚ) : Option ClassificationResult :=
  (spent_percent? budget spent).map
    (fun sp => ⟨budget * year_progress, classify budget spent year_progress, sp⟩)

/-- `display_analysis` projection block (lines 251-254): computed only when
`current_month > 1`, as `(monthly_avg, yearly_projection)`. -/
def project (spent : ℚ) (current_month : ℕ) : Option (ℚ × ℚ) :=
  if current_month > 1 then
    let monthly_avg := spent / (current_month : ℚ)
    some (monthly_avg, monthly_avg * 12)
  else none

/-- `calculate_year_progress` (lines 118-122), as a function of the elapsed
seconds since January 1st of the current year: the elapsed fraction of a
fixed 365.25-day year, clamped at `1.0` by the `min`. -/
def calculate_year_progress (elapsed_seconds : ℚ) : ℚ :=
  min (elapsed_seconds / (365.25 * 24 * 60 * 60)) 1.0

/-- C1: for `budget > 0`, `spent ≥ 0`, `year_progress ∈ [0,1]` and
`expected = budget * year_progress`, classification yields `OverBudget` when
`spent > expected * 1.1`, `UnderSpending` when `spent < expected * 0.9`, and
`OnTrack` otherwise; in particular `classify 100 111 1 = OverBudget`,
`classify 100 89 1 = UnderSpending`, `classify 100 90 1 = OnTrack`. -/
theorem classify_pacing_bands (budget spent year_progress : ℚ)
    (hb : 0 < budget) (hs : 0 ≤ spent)
    (hp0 : 0 ≤ year_progress) (hp1 : year_progress ≤ 1) :
    (spent > budget * year_progress * 1.1 →
      classify budget spent year_progress = Status.OverBudget) ∧
    (spent < budget * year_progress * 0.9 →
      classify budget spent year_progress = Status.UnderSpending) ∧
    (budget * year_progress * 0.9 ≤ spent → spent ≤ budget * year_progress * 1.1 →
      classify budget spent year_progress = Status.OnTrack) ∧
    classify 100 111 1 = Status.OverBudget ∧
    classify 100 89 1 = Status.UnderSpending ∧
    classify 100 90 1 = Status.OnTrack := by
  have hact : is_category_active budget spent := Or.inl hb
  have hne : budget ≠ 0 := ne_of_gt hb
  have hexp : (0 : ℚ) ≤ budget * year_progress := mul_nonneg hb.le hp0
  refine ⟨?_, ?_, ?_, ?_, ?_, ?_⟩
  · intro hover
    simp only [classify, if_pos hact, if_neg hne]
    rw [if_pos hover]
  · intro hunder
    have hnot : ¬ spent > budget * year_progress * 1.1 := by nlinarith
    simp only [classify, if_pos hact, if_neg hne]
    rw [if_neg hnot, if_pos hunder]
  · intro hlo hhi
    have hnot : ¬ spent > budget * year_progress * 1.1 := not_lt.mpr hhi
    have hnot2 : ¬ spent < budget * year_progress * 0.9 := not_lt.mpr hlo
    simp only [classify, if_pos hact, if_neg hne]
    rw [if_neg hnot, if_neg hnot2]
  · norm_num [classify, is_category_active]
  · norm_num [classify, is_category_active]
  · norm_num [classify, is_category_active]

theorem classify_pacing_bands_witness :
    classify 100 105 1 = Status.OnTrack :=
  (classify_pacing_bands 100 105 1 (by norm_num) (by norm_num) (by norm_num)
    (by norm_num)).2.2.1 (by norm_num) (by norm_num)

/-- C2: for every `year_progress ∈ [0,1]`, a zero-budget category is
`UnbudgetedSpending` when `spent > 0` and `NoActivity` when `spent = 0`. -/
theorem classify_zero_budget (spent year_progress : ℚ)
    (hp0 : 0 ≤ year_progress) (hp1 : year_progress ≤ 1) :
    (spent > 0 → classify 0 spent year_progress = Status.UnbudgetedSpending) ∧
    classify 0 0 year_progress = Status.NoActivity := by
  constructor
  · intro hs
    have hact : is_category_active 0 spent := Or.inr hs
    simp [classify, hact, hs]
  · have hact : ¬ is_category_active 0 0 := by
      simp [is_category_active]
    simp only [classify, if_neg hact]

theorem classify_zero_budget_witness :
    classify 0 7 (1/2) = Status.UnbudgetedSpending ∧
    classify 0 0 (1/2) = Status.NoActivity :=
  ⟨(classify_zero_budget 7 (1/2) (by norm_num) (by norm_num)).1 (by norm_num),
   (classify_zero_budget 0 (1/2) (by norm_num) (by norm_num)).2⟩

/-- C3: classification is total on `budget ≥ 0`, `spent ≥ 0`,
`year_progress ∈ [0,1]`: the full per-category pass always returns a value
and never divides by zero, because it branches on `budget > 0` before any
division. -/
theorem classifyResult_total (budget spent year_progress : ℚ)
    (hb : 0 ≤ budget) (hs : 0 ≤ spent)
    (hp0 : 0 ≤ year_progress) (hp1 : year_progress ≤ 1) :
    (classifyResult budget spent year_progress).isSome = true := by
  unfold classifyResult spent_percent? div?
  split_ifs <;> simp_all

theorem classifyResult_total_witness :
    (classifyResult 0 0 0).isSome = true :=
  classifyResult_total 0 0 0 (by norm_num) (by norm_num) (by norm_num) (by norm_num)

/-- C4: for `spent ≥ 0` and `current_month ∈ [1,12]`, the projection is not
computed when `current_month ≤ 1`, and otherwise equals
`monthly_average = spent / current_month` with
`yearly_projection = monthly_average * 12`; in particular
`project 1200 6 = (200, 2400)`. -/
theorem project_contract (spent : ℚ) (current_month : ℕ)
    (hs : 0 ≤ spent) (h1 : 1 ≤ current_month) (h12 : current_month ≤ 12) :
    (current_month ≤ 1 → project spent current_month = none) ∧
    (1 < current_month →
      project spent current_month =
        some (spent / (current_month : ℚ), spent / (current_month : ℚ) * 12)) ∧
    project 1200 6 = some (200, 2400) := by
  refine ⟨?_, ?_, ?_⟩
  · intro hle
    simp [project, Nat.not_lt.mpr hle]
  · intro hgt
    simp [project, hgt]
  · norm_num [project]

theorem project_contract_witness :
    project 1200 1 = none ∧ project 1200 6 = some (200, 2400) :=
  ⟨(project_contract 1200 1 (by norm_num) (by norm_num) (by norm_num)).1 (by norm_num),
   (project_contract 1200 6 (by norm_num) (by norm_num) (by norm_num)).2.2⟩

/-- C9: year progress is the elapsed seconds since January 1st divided by a
fixed 365.25-day year, clamped at `1.0`; it always lies in `[0,1]`, and at
Dec 31 23:59:59 of a 365-day year (elapsed `31535999` seconds) it is
strictly below `1.0` and within `0.001` of `0.9997`. -/
theorem year_progress_contract (elapsed_seconds : ℚ) (h : 0 ≤ elapsed_seconds) :
    calculate_year_progress elapsed_seconds =
      min (elapsed_seconds / (365.25 * 24 * 60 * 60)) 1 ∧
    0 ≤ calculate_year_progress elapsed_seconds ∧
    calculate_year_progress elapsed_seconds ≤ 1 ∧
    calculate_year_progress 31535999 < 1 ∧
    |calculate_year_progress 31535999 - 0.9997| < 0.001 := by
  have hval : calculate_year_progress 31535999 = 31535999 / 31557600 := by
    unfold calculate_year_progress
    rw [min_eq_left] <;> norm_num
  refine ⟨by norm_num [calculate_year_progress], ?_, ?_, ?_, ?_⟩
  · unfold calculate_year_progress
    exact le_min (by positivity) (by norm_num)
  · unfold calculate_year_progress
    exact le_trans (min_le_right _ _) (by norm_num)
  · rw [hval]; norm_num
  · rw [hval]
    have hneg : (31535999 : ℚ) / 31557600 - 0.9997 < 0 := by norm_num
    rw [abs_of_neg hneg]
    norm_num

theorem year_progress_contract_witness :
    0 ≤ calculate_year_progress 31535999 ∧ calculate_year_progress 31535999 < 1 :=
  ⟨(year_progress_contract 31535999 (by norm_num)).2.1,
   (year_progress_contract 31535999 (by norm_num)).2.2.2.1⟩

/-! ### Budget template store

`save_template` / `load_template` / `delete_template` (lines 72-86) and the
default-template auto-load of `__init__` (lines 52-56).  Python dicts are
embedded as association lists with dict update semantics (`dictInsert`
overwrites in place, `dictErase` removes the key); the `st.success` /
`st.error` calls are embedded as a list of emitted messages. -/

/-- A message shown to the user during an operation (the embedded
`st.success` / `st.error` calls; the Hebrew text is abstracted). -/
inductive Msg where
  | success (text : String)
  | error (text : String)
deriving DecidableEq, Repr

/-- A budget mapping: category to budgeted amount, as a Python dict. -/
abbrev BudgetMap := List (String × ℚ)

/-- The persisted template store: template name to budget mapping. -/
abbrev Templates := List (String × BudgetMap)

/-- Python dict lookup `d[k]` (first entry with the key; keys are unique in
an actual dict). -/
def dictLookup {κ α : Type} [DecidableEq κ] (k : κ) : List (κ × α) → Option α
  | [] => none
  | (k2, v) :: rest => if k2 = k then some v else dictLookup k rest

/-- Python dict update `d[k] = v`: overwrites in place, appends if absent. -/
def dictInsert {κ α : Type} [DecidableEq κ] (k : κ) (v : α) :
    List (κ × α) → List (κ × α)
  | [] => [(k, v)]
  | (k2, v2) :: rest => if k2 = k then (k, v) :: rest else (k2, v2) :: dictInsert k v rest

/-- Python dict deletion `del d[k]`. -/
def dictErase {κ α : Type} [DecidableEq κ] (k : κ) : List (κ × α) → List (κ × α)
  | [] => []
  | (k2, v2) :: rest => if k2 = k then rest else (k2, v2) :: dictErase k rest

/-- Python `d.get(k, dflt)`. -/
def dictGetD {κ α : Type} [DecidableEq κ] (k : κ) (d : List (κ × α)) (dflt : α) : α :=
  (dictLookup k d).getD dflt

/-- The state touched by the template operations: the persisted store
`self.templates` and the active mapping `st.session_state.current_budgets`. -/
structure TemplateState where
  templates : Templates
  current_budgets : BudgetMap
deriving DecidableEq, Repr

/-- `save_template` (lines 72-75): upserts the current budgets under `name`
and reports success. -/
def save_template (s : TemplateState) (name : String) : TemplateState × List Msg :=
  ({ s with templates := dictInsert name s.current_budgets s.templates },
   [Msg.success ("saved template " ++ name)])

/-- `load_template` (lines 77-80): only `if name in self.templates` copies
the stored mapping into the current budgets and reports success; an absent
name falls through without any message. -/
def load_template (s : TemplateState) (name : String) : TemplateState × List Msg :=
  match dictLookup name s.templates with
  | some m => ({ s with current_budgets := m }, [Msg.success ("loaded template " ++ name)])
  | none => (s, [])

/-- `delete_template` (lines 82-86): only `if name in self.templates`
removes the entry and reports success; an absent name falls through without
any message. -/
def delete_template (s : TemplateState) (name : String) : TemplateState × List Msg :=
  match dictLookup name s.templates with
  | some _ => ({ s with templates := dictErase name s.templates },
               [Msg.success ("deleted template " ++ name)])
  | none => (s, [])

/-- Python `str.lower()` on a name, character by character (structural on
the character list, so the kernel can evaluate it on concrete names). -/
def pyLower (s : String) : String :=
  ⟨s.data.map Char.toLower⟩

/-- The generator-with-default of `__init__` (lines 53-54): first key of the
store satisfying the predicate. -/
def findFirstKey {α : Type} (p : String → Bool) : List (String × α) → Option String
  | [] => none
  | (k, _) :: rest => if p k then some k else findFirstKey p rest

/-- `__init__` (lines 32-56): `current_budgets` starts as the fresh-session
empty dict, then the first template whose name lowercases to `"default"`,
when one exists, is loaded via `load_template`. -/
def initBudgets (templates : Templates) : TemplateState :=
  let s0 : TemplateState := ⟨templates, []⟩
  match findFirstKey (fun n => pyLower n == "default") templates with
  | some n => (load_template s0 n).1
  | none => s0

theorem dictLookup_dictInsert {κ α : Type} [DecidableEq κ] (k : κ) (v : α)
    (d : List (κ × α)) : dictLookup k (dictInsert k v d) = some v := by
  induction d with
  | nil => simp [dictInsert, dictLookup]
  | cons hd tl ih =>
    obtain ⟨k2, v2⟩ := hd
    by_cases h : k2 = k <;> simp [dictInsert, dictLookup, h, ih]

theorem findFirstKey_some {α : Type} (p : String → Bool) (d : List (String × α))
    (n : String) (h : findFirstKey p d = some n) :
    p n = true ∧ ∃ v, dictLookup n d = some v ∧ (n, v) ∈ d := by
  induction d with
  | nil => simp [findFirstKey] at h
  | cons hd tl ih =>
    obtain ⟨k, v⟩ := hd
    by_cases hp : p k
    · simp [findFirstKey, hp] at h
      subst h
      exact ⟨hp, v, by simp [dictLookup], by simp⟩
    · simp [findFirstKey, hp] at h
      obtain ⟨hn, v2, hv2, hmem⟩ := ih h
      have hk : k ≠ n := fun he => hp (he ▸ hn)
      exact ⟨hn, v2, by simp [dictLookup, hk, hv2],
             List.mem_cons_of_mem _ hmem⟩

theorem findFirstKey_none {α : Type} (p : String → Bool) (d : List (String × α))
    (h : findFirstKey p d = none) : ∀ e ∈ d, p e.1 = false := by
  induction d with
  | nil => simp
  | cons hd tl ih =>
    obtain ⟨k, v⟩ := hd
    by_cases hp : p k
    · simp [findFirstKey, hp] at h
    · intro e he
      rcases List.mem_cons.mp he with he | he
      · subst he
        exact Bool.eq_false_iff.mpr hp
      · simp [findFirstKey, hp] at h
        exact ih h e he

/-- C7 counterexample: on a name absent from the store, `load_template` and
`delete_template` change no state but also report nothing at all — no
`NotFound` (or any) message is emitted, contradicting the claim that the
failure is reported. -/
theorem absent_template_not_reported :
    load_template ⟨[("groceries", [("food", 100)])], [("rent", 50)]⟩ "X" =
      (⟨[("groceries", [("food", 100)])], [("rent", 50)]⟩, []) ∧
    delete_template ⟨[("groceries", [("food", 100)])], [("rent", 50)]⟩ "X" =
      (⟨[("groceries", [("food", 100)])], [("rent", 50)]⟩, []) := by
  constructor <;> rfl

/-- C7 (amended): on a name absent from the store, `load_template` and
`delete_template` leave all state unchanged and emit no message at all —
the operation is silently ignored rather than reported as `NotFound`. -/
theorem absent_template_silent (s : TemplateState) (name : String)
    (h : dictLookup name s.templates = none) :
    load_template s name = (s, []) ∧ delete_template s name = (s, []) := by
  unfold load_template delete_template
  rw [h]
  exact ⟨rfl, rfl⟩

theorem absent_template_silent_witness :
    load_template ⟨[], [("rent", 50)]⟩ "X" = (⟨[], [("rent", 50)]⟩, []) ∧
    delete_template ⟨[], [("rent", 50)]⟩ "X" = (⟨[], [("rent", 50)]⟩, []) :=
  absent_template_silent ⟨[], [("rent", 50)]⟩ "X" rfl

/-- C8: saving the active mapping under a name and loading that name back
reproduces exactly the same active budget mapping, for every state and
name. -/
theorem save_load_roundtrip (s : TemplateState) (name : String) :
    ((load_template (save_template s name).1 name).1).current_budgets
      = s.current_budgets := by
  unfold save_template load_template
  simp [dictLookup_dictInsert]

/-- C10: on construction, when some stored template's name lowercases to
`"default"`, such a template's mapping becomes the active budget mapping;
otherwise the active budget mapping starts empty. -/
theorem init_default_template (templates : Templates) :
    ((∃ e ∈ templates, pyLower e.1 = "default") →
      ∃ e ∈ templates, pyLower e.1 = "default" ∧
        (initBudgets templates).current_budgets = e.2) ∧
    ((∀ e ∈ templates, pyLower e.1 ≠ "default") →
      (initBudgets templates).current_budgets = []) := by
  constructor
  · rintro ⟨e, he, hdef⟩
    rcases hfind : findFirstKey (fun n => pyLower n == "default") templates with _ | n
    · have := findFirstKey_none _ _ hfind e he
      simp [hdef] at this
    · obtain ⟨hn, v, hv, hmem⟩ := findFirstKey_some _ _ _ hfind
      refine ⟨(n, v), hmem, by simpa using hn, ?_⟩
      simp only [initBudgets, hfind, load_template, hv]
  · intro hall
    rcases hfind : findFirstKey (fun n => pyLower n == "default") templates with _ | n
    · simp only [initBudgets, hfind]
    · obtain ⟨hn, v, hv, hmem⟩ := findFirstKey_some _ _ _ hfind
      exact absurd (by simpa using hn) (hall (n, v) hmem)

theorem init_default_template_witness :
    (∃ e ∈ ([("Default", [("food", 100)])] : Templates), pyLower e.1 = "default" ∧
      (initBudgets [("Default", [("food", 100)])]).current_budgets = e.2) ∧
    (initBudgets [("other", [("food", 100)])]).current_budgets = [] :=
  ⟨(init_default_template [("Default", [("food", 100)])]).1
      ⟨("Default", [("food", 100)]), by simp, by decide⟩,
   (init_default_template [("other", [("food", 100)])]).2
      (by
        intro e he
        simp only [List.mem_singleton] at he
        rw [he]
        decide)⟩

/-! ### Ledger ingestion

`process_file` (lines 88-116).  The uploaded CSV is embedded as a parsed
table: flags for the presence of the three required columns (`KeyError`
when a row accesses a missing one) and a list of rows.  A month cell is a
string (the `.str[:4]` slice is the first four characters); a category cell
is `Option String`, `none` being a missing value (pandas `NaN`, which is
truthy in Python); an amount cell is numeric, missing (`pd.notna` false,
so `0` is used) or malformed text (`float(...)` raises `ValueError`).
`sorted` on the accumulated category set raises `TypeError` when the set
mixes `NaN` with strings; string sorting is code-point lexicographic. -/

/-- An amount cell of the uploaded table. -/
inductive AmountCell where
  | num (q : ℚ)
  | missing
  | malformed
deriving DecidableEq, Repr

/-- One transaction row of the uploaded table. -/
structure Row where
  month : String
  category : Option String
  amount : AmountCell
deriving DecidableEq, Repr

/-- The parsed upload: which of the three required columns exist, and the
rows. -/
structure CsvTable where
  hasMonthCol : Bool
  hasCategoryCol : Bool
  hasAmountCol : Bool
  rows : List Row
deriving DecidableEq, Repr

/-- The aggregation state held in `st.session_state`: `years`,
`categories` (possibly containing the `NaN` key, hence `Option String`)
and `spending_data`. -/
structure AppState where
  years : List String
  categories : List (Option String)
  spending_data : List (String × List (Option String × ℚ))
deriving DecidableEq, Repr

/-- `df['שייך לתזרים חודש'].str[:4]` (line 91): first four characters. -/
def yearOf (month : String) : String :=
  ⟨month.data.take 4⟩

/-- Code-point comparison of strings, as Python compares them. -/
def strLtList : List Char → List Char → Bool
  | [], [] => false
  | [], _ :: _ => true
  | _ :: _, [] => false
  | a :: as, b :: bs =>
    if a.val < b.val then true
    else if b.val < a.val then false
    else strLtList as bs

/-- `a ≤ b` on strings, code-point lexicographic. -/
def strLe (a b : String) : Bool :=
  !(strLtList b.data a.data)

/-- Insertion step of an ascending sort by the comparator `le`. -/
def insertAscBy {α : Type} (le : α → α → Bool) (x : α) : List α → List α
  | [] => [x]
  | y :: ys => if le x y then x :: y :: ys else y :: insertAscBy le x ys

/-- Python `sorted` by the comparator `le` (insertion sort). -/
def sortAscBy {α : Type} (le : α → α → Bool) (l : List α) : List α :=
  l.foldr (insertAscBy le) []

/-- Ordering used by `sorted` on the category set when it sorts at all:
the `NaN` key is keyed as the empty string (a set mixing `NaN` with
strings never reaches this point — it raises `TypeError`). -/
def optLe (a b : Option String) : Bool :=
  strLe (a.getD "") (b.getD "")

/-- `if category and category not in self.excluded_categories` (line 104):
a missing category (`NaN`) is truthy and is not a member of the excluded
string set; a present category is kept when non-empty and not excluded. -/
def categoryIncluded (excl : List String) (c : Option String) : Bool :=
  match c with
  | none => true
  | some nm => !(nm == "") && !(excl.contains nm)

/-- `float(row['סכום']) if pd.notna(row['סכום']) else 0` (line 106):
`none` is a raised exception (`KeyError` on a missing amount column,
`ValueError` on non-numeric text). -/
def amountOf (hasAmt : Bool) (r : Row) : Option ℚ :=
  if hasAmt then
    match r.amount with
    | AmountCell.num q => some q
    | AmountCell.missing => some 0
    | AmountCell.malformed => none
  else none

/-- Python `set.add`: no duplicates (the set order is irrelevant — the set
is sorted, or fails to sort, afterwards). -/
def insertNew {α : Type} [DecidableEq α] (x : α) (l : List α) : List α :=
  if x ∈ l then l else x :: l

/-- The body of the row loop (lines 102-107) on the accumulator
`(categories, spending_data[year])`; `none` is a raised exception. -/
def processRow (excl : List String) (hasCat hasAmt : Bool)
    (acc : List (Option String) × List (Option String × ℚ)) (r : Row) :
    Option (List (Option String) × List (Option String × ℚ)) :=
  if hasCat then
    if categoryIncluded excl r.category then
      match amountOf hasAmt r with
      | some a =>
        some (insertNew r.category acc.1,
              dictInsert r.category (dictGetD r.category acc.2 0 + a) acc.2)
      | none => none
    else some acc
  else none

/-- The year loop (lines 98-107): per year, the matching rows are folded
from an empty per-year dict, the category set threading through. -/
def processYears (excl : List String) (hasCat hasAmt : Bool) (rows : List Row) :
    List String → List (Option String) →
    Option (List (Option String) × List (String × List (Option String × ℚ)))
  | [], cats => some (cats, [])
  | y :: ys, cats =>
    match (rows.filter (fun r => yearOf r.month == y)).foldlM
        (processRow excl hasCat hasAmt) (cats, []) with
    | none => none
    | some (cats2, totals) =>
      match processYears excl hasCat hasAmt rows ys cats2 with
      | none => none
      | some (cats3, rest) => some (cats3, (y, totals) :: rest)

/-- `sorted(categories)` (line 109): raises `TypeError` when the set mixes
the `NaN` key with strings, otherwise sorts. -/
def sortedCategories (cats : List (Option String)) : Option (List (Option String)) :=
  if cats.contains none && cats.any (fun c => c.isSome) then none
  else some (sortAscBy optLe cats)

/-- Lines 91-92: the sorted unique first-four-character years of the
month column. -/
def ingestYears (t : CsvTable) : List String :=
  sortAscBy strLe ((t.rows.map (fun r => yearOf r.month)).dedup)

/-- `process_file` (lines 88-116).  Mirrors the statement order of the
source: `st.session_state.years` is assigned (line 93) before the row loop
runs, while `categories` and `spending_data` are assigned only after it
(lines 109-110); any raised exception is caught (line 114), reported, and
makes the call return `False`. -/
def process_file (excl : List String) (s : AppState) (t : CsvTable) : AppState × Bool :=
  if t.hasMonthCol then
    let years := ingestYears t
    let s1 : AppState := { s with years := years }
    match processYears excl t.hasCategoryCol t.hasAmountCol t.rows years [] with
    | some (cats, spending) =>
      match sortedCategories cats with
      | some cs => ({ s1 with categories := cs, spending_data := spending }, true)
      | none => (s1, false)
    | none => (s1, false)
  else (s, false)

/-- C5: the claim that a failed ingestion retains the entire prior
aggregation state is contradicted by the code: on a table whose month
column parses but whose amount data is non-numeric, the error is reported
and `categories` / `spending_data` are retained, but `st.session_state.years`
has already been overwritten with the new file's years (line 93 runs before
the fallible row loop). -/
theorem process_file_commits_years_on_failure :
    (process_file []
        ⟨["2023"], [some "Food"], [("2023", [(some "Food", 250)])]⟩
        ⟨true, true, true,
          [⟨"2024-01", some "Food", AmountCell.malformed⟩]⟩).2 = false ∧
    (process_file []
        ⟨["2023"], [some "Food"], [("2023", [(some "Food", 250)])]⟩
        ⟨true, true, true,
          [⟨"2024-01", some "Food", AmountCell.malformed⟩]⟩).1.years = ["2024"] ∧
    (process_file []
        ⟨["2023"], [some "Food"], [("2023", [(some "Food", 250)])]⟩
        ⟨true, true, true,
          [⟨"2024-01", some "Food", AmountCell.malformed⟩]⟩).1.categories
      = [some "Food"] ∧
    (process_file []
        ⟨["2023"], [some "Food"], [("2023", [(some "Food", 250)])]⟩
        ⟨true, true, true,
          [⟨"2024-01", some "Food", AmountCell.malformed⟩]⟩).1.spending_data
      = [("2023", [(some "Food", 250)])] := by
  decide

/-- C6 counterexample: a non-numeric amount is not treated as `0` — it
aborts the whole ingestion (`float(...)` raises), so nothing is summed,
while the same table with the amount missing aggregates to `50`. -/
theorem aggregate_malformed_amount_not_zero :
    (process_file [] ⟨[], [], []⟩
        ⟨true, true, true,
          [⟨"2024-01", some "Food", AmountCell.num 50⟩,
           ⟨"2024-02", some "Food", AmountCell.malformed⟩]⟩).2 = false ∧
    (process_file [] ⟨[], [], []⟩
        ⟨true, true, true,
          [⟨"2024-01", some "Food", AmountCell.num 50⟩,
           ⟨"2024-02", some "Food", AmountCell.malformed⟩]⟩).1.spending_data = [] ∧
    (process_file [] ⟨[], [], []⟩
        ⟨true, true, true,
          [⟨"2024-01", some "Food", AmountCell.num 50⟩,
           ⟨"2024-02", some "Food", AmountCell.missing⟩]⟩).2 = true ∧
    (process_file [] ⟨[], [], []⟩
        ⟨true, true, true,
          [⟨"2024-01", some "Food", AmountCell.num 50⟩,
           ⟨"2024-02", some "Food", AmountCell.missing⟩]⟩).1.spending_data
      = [("2024", [(some "Food", 50)])] := by
  have h : process_file [] ⟨[], [], []⟩
      ⟨true, true, true,
        [⟨"2024-01", some "Food", AmountCell.num 50⟩,
         ⟨"2024-02", some "Food", AmountCell.missing⟩]⟩
      = (⟨["2024"], [some "Food"], [("2024", [(some "Food", 0 + 50 + 0)])]⟩, true) := rfl
  refine ⟨by decide, by decide, ?_, ?_⟩
  · rw [h]
  · rw [h]
    norm_num

/-! ### What a successful aggregation computes

On a table where every row can be processed (category cells present, no
malformed amount), the `Option`-valued row loop is the pair of two pure
folds — one for the category set, one for the per-year totals — and the
totals are the filtered sums the specification describes. -/

/-- The amount a processable row contributes: the numeric value, `0` for a
missing cell. -/
def amountValue : AmountCell → ℚ
  | AmountCell.num q => q
  | AmountCell.missing => 0
  | AmountCell.malformed => 0

/-- The totals component of the row-loop step. -/
def totStep (excl : List String) (d : List (Option String × ℚ)) (r : Row) :
    List (Option String × ℚ) :=
  if categoryIncluded excl r.category then
    dictInsert r.category (dictGetD r.category d 0 + amountValue r.amount) d
  else d

/-- The category-set component of the row-loop step. -/
def catStep (excl : List String) (cats : List (Option String)) (r : Row) :
    List (Option String) :=
  if categoryIncluded excl r.category then insertNew r.category cats else cats

/-- Does a row land in the (year-filtered) bucket of category key `k`? -/
def incRow (excl : List String) (k : Option String) (r : Row) : Bool :=
  (r.category == k) && categoryIncluded excl r.category

/-- Sum of the contributions of the rows landing in bucket `k`. -/
def sumInc (excl : List String) (k : Option String) (rs : List Row) : ℚ :=
  ((rs.filter (incRow excl k)).map (fun r => amountValue r.amount)).sum

theorem foldlM_processRow (excl : List String) (rs : List Row)
    (h : ∀ r ∈ rs, r.amount ≠ AmountCell.malformed) :
    ∀ (cats : List (Option String)) (d : List (Option String × ℚ)),
    rs.foldlM (processRow excl true true) (cats, d)
      = some (rs.foldl (catStep excl) cats, rs.foldl (totStep excl) d) := by
  induction rs with
  | nil => intro cats d; rfl
  | cons r rs ih =>
    intro cats d
    have hr : r.amount ≠ AmountCell.malformed := h r (List.mem_cons_self r rs)
    have hrs : ∀ x ∈ rs, x.amount ≠ AmountCell.malformed :=
      fun x hx => h x (List.mem_cons_of_mem _ hx)
    have ha : amountOf true r = some (amountValue r.amount) := by
      cases hm : r.amount with
      | num q => simp [amountOf, amountValue, hm]
      | missing => simp [amountOf, amountValue, hm]
      | malformed => exact absurd hm hr
    cases hc : categoryIncluded excl r.category with
    | true =>
      simp only [List.foldlM_cons, List.foldl_cons, processRow, hc, ha, if_true,
        catStep, totStep, Option.bind_eq_bind, Option.some_bind]
      exact ih hrs _ _
    | false =>
      simp only [List.foldlM_cons, List.foldl_cons, processRow, hc, ha,
        Bool.false_eq_true, if_false, catStep, totStep,
        Option.bind_eq_bind, Option.some_bind]
      exact ih hrs _ _

theorem dictLookup_dictInsert_ne {κ α : Type} [DecidableEq κ] (k k2 : κ) (v : α)
    (d : List (κ × α)) (hne : k2 ≠ k) :
    dictLookup k (dictInsert k2 v d) = dictLookup k d := by
  induction d with
  | nil => simp [dictInsert, dictLookup, hne]
  | cons hd tl ih =>
    obtain ⟨k3, v3⟩ := hd
    by_cases h3 : k3 = k2
    · subst h3
      simp [dictInsert, dictLookup, hne]
    · simp [dictInsert, dictLookup, h3, ih]

theorem sumInc_cons (excl : List String) (k : Option String) (r : Row) (rs : List Row) :
    sumInc excl k (r :: rs)
      = (if incRow excl k r then amountValue r.amount else 0) + sumInc excl k rs := by
  cases hi : incRow excl k r <;> simp [sumInc, List.filter_cons, hi]

theorem totStep_fold_lookup_some (excl : List String) (k : Option String) :
    ∀ (rs : List Row) (d : List (Option String × ℚ)) (v : ℚ),
    dictLookup k d = some v →
    dictLookup k (rs.foldl (totStep excl) d) = some (v + sumInc excl k rs) := by
  intro rs
  induction rs with
  | nil => intro d v hv; simp [sumInc, hv]
  | cons r rs ih =>
    intro d v hv
    rw [List.foldl_cons, sumInc_cons]
    cases hc : categoryIncluded excl r.category with
    | false =>
      have hi : incRow excl k r = false := by simp [incRow, hc]
      rw [totStep, hc]
      simp only [Bool.false_eq_true, if_false, hi]
      rw [ih d v hv]
      ring_nf
    | true =>
      rw [totStep, hc, if_pos rfl]
      by_cases hk : r.category = k
      · subst hk
        have hi : incRow excl r.category r = true := by simp [incRow, hc]
        have hget : dictGetD r.category d 0 = v := by simp [dictGetD, hv]
        rw [hget]
        rw [ih _ _ (dictLookup_dictInsert r.category _ d)]
        rw [hi, if_pos rfl]
        ring_nf
      · have hi : incRow excl k r = false := by simp [incRow, hk]
        rw [ih _ v (by rw [dictLookup_dictInsert_ne k r.category _ d hk]; exact hv)]
        simp only [hi, Bool.false_eq_true, if_false]
        ring_nf

theorem totStep_fold_lookup_none (excl : List String) (k : Option String) :
    ∀ (rs : List Row) (d : List (Option String × ℚ)),
    dictLookup k d = none →
    dictLookup k (rs.foldl (totStep excl) d)
      = (if rs.any (incRow excl k) then some (sumInc excl k rs) else none) := by
  intro rs
  induction rs with
  | nil => intro d hv; simp [sumInc, hv]
  | cons r rs ih =>
    intro d hv
    rw [List.foldl_cons]
    cases hc : categoryIncluded excl r.category with
    | false =>
      have hi : incRow excl k r = false := by simp [incRow, hc]
      rw [totStep, hc]
      simp only [Bool.false_eq_true, if_false]
      rw [ih d hv, sumInc_cons]
      simp [hi, List.any_cons]
    | true =>
      rw [totStep, hc, if_pos rfl]
      by_cases hk : r.category = k
      · subst hk
        have hi : incRow excl r.category r = true := by simp [incRow, hc]
        have hget : dictGetD r.category d 0 = 0 := by simp [dictGetD, hv]
        rw [hget]
        rw [totStep_fold_lookup_some excl r.category rs _ _
          (dictLookup_dictInsert r.category _ d)]
        rw [sumInc_cons, hi]
        simp only [List.any_cons, hi, Bool.true_or, if_true, if_pos rfl]
        congr 1
        ring_nf
      · have hi : incRow excl k r = false := by simp [incRow, hk]
        rw [ih _ (by rw [dictLookup_dictInsert_ne k r.category _ d hk]; exact hv)]
        rw [sumInc_cons]
        simp [hi, List.any_cons]

/-- The totals dict committed for one year: the year's rows folded from an
empty dict. -/
def yearTotals (excl : List String) (rows : List Row) (y : String) :
    List (Option String × ℚ) :=
  (rows.filter (fun r => yearOf r.month == y)).foldl (totStep excl) []

theorem processYears_eq (excl : List String) (rows : List Row)
    (h : ∀ r ∈ rows, r.amount ≠ AmountCell.malformed) :
    ∀ (ys : List String) (cats : List (Option String)),
    processYears excl true true rows ys cats
      = some (ys.foldl (fun cs y =>
                (rows.filter (fun r => yearOf r.month == y)).foldl (catStep excl) cs) cats,
              ys.map (fun y => (y, yearTotals excl rows y))) := by
  intro ys
  induction ys with
  | nil => intro cats; rfl
  | cons y ys ih =>
    intro cats
    have hf : ∀ r ∈ rows.filter (fun r => yearOf r.month == y),
        r.amount ≠ AmountCell.malformed :=
      fun r hr => h r (List.mem_of_mem_filter hr)
    simp only [processYears, foldlM_processRow excl _ hf, ih, List.foldl_cons,
      List.map_cons, yearTotals]

theorem mem_insertNew {α : Type} [DecidableEq α] (x a : α) (l : List α)
    (h : a ∈ insertNew x l) : a = x ∨ a ∈ l := by
  by_cases hx : x ∈ l
  · simp [insertNew, hx] at h
    exact Or.inr h
  · simp [insertNew, hx] at h
    exact h

theorem catStep_fold_isSome (excl : List String) :
    ∀ (rs : List Row), (∀ r ∈ rs, (r.category).isSome = true) →
    ∀ (cats : List (Option String)), (∀ c ∈ cats, c.isSome = true) →
    ∀ c ∈ rs.foldl (catStep excl) cats, c.isSome = true := by
  intro rs
  induction rs with
  | nil => intro _ cats hcats; simpa using hcats
  | cons r rs ih =>
    intro h cats hcats
    rw [List.foldl_cons]
    apply ih (fun x hx => h x (List.mem_cons_of_mem _ hx))
    intro c hc
    cases hinc : categoryIncluded excl r.category with
    | false =>
      rw [catStep, hinc] at hc
      simp only [Bool.false_eq_true, if_false] at hc
      exact hcats c hc
    | true =>
      rw [catStep, hinc] at hc
      simp only [if_true] at hc
      rcases mem_insertNew _ _ _ hc with h2 | h2
      · rw [h2]; exact h r (List.mem_cons_self r rs)
      · exact hcats c h2

theorem yearsFold_cats_isSome (excl : List String) (rows : List Row)
    (hrows : ∀ r ∈ rows, (r.category).isSome = true) :
    ∀ (ys : List String) (cats : List (Option String)),
    (∀ c ∈ cats, c.isSome = true) →
    ∀ c ∈ ys.foldl (fun cs y =>
        (rows.filter (fun r => yearOf r.month == y)).foldl (catStep excl) cs) cats,
      c.isSome = true := by
  intro ys
  induction ys with
  | nil => intro cats hcats; simpa using hcats
  | cons y ys ih =>
    intro cats hcats
    rw [List.foldl_cons]
    exact ih _ (catStep_fold_isSome excl _
      (fun r hr => hrows r (List.mem_of_mem_filter hr)) _ hcats)

theorem dictLookup_map_pair {β : Type} (T : String → β) :
    ∀ (ys : List String) (y : String),
    dictLookup y (ys.map (fun z => (z, T z)))
      = (if y ∈ ys then some (T y) else none) := by
  intro ys
  induction ys with
  | nil => intro y; simp [dictLookup]
  | cons z ys ih =>
    intro y
    by_cases hz : z = y
    · subst hz; simp [dictLookup]
    · have hyz : ¬(y = z) := fun hh => hz hh.symm
      simp [dictLookup, hz, ih, List.mem_cons, hyz]

theorem mem_insertAscBy {α : Type} (le : α → α → Bool) (x a : α) :
    ∀ (l : List α), a ∈ insertAscBy le x l ↔ a = x ∨ a ∈ l := by
  intro l
  induction l with
  | nil => simp [insertAscBy]
  | cons y ys ih =>
    cases hle : le x y with
    | true => simp [insertAscBy, hle]
    | false =>
      simp only [insertAscBy, hle, Bool.false_eq_true, if_false, List.mem_cons, ih]
      tauto

theorem mem_sortAscBy {α : Type} (le : α → α → Bool) (a : α) :
    ∀ (l : List α), a ∈ sortAscBy le l ↔ a ∈ l := by
  intro l
  induction l with
  | nil => simp [sortAscBy]
  | cons x xs ih =>
    simp only [sortAscBy, List.foldr_cons, List.mem_cons]
    rw [mem_insertAscBy]
    simp only [sortAscBy] at ih
    rw [ih]

/-- The specification's aggregated cell (§4.4): the sum of the signed
amounts of the rows whose month field starts with the four characters of
`y` and whose category is `c`, a missing amount contributing `0`. -/
def specCellTotal (rows : List Row) (y : String) (c : String) : ℚ :=
  ((rows.filter (fun r => yearOf r.month == y && r.category == some c)).map
    (fun r => amountValue r.amount)).sum

theorem incRow_eq (excl : List String) (c : String) (hc : ¬(c = ""))
    (hx : ¬(c ∈ excl)) (r : Row) :
    incRow excl (some c) r = (r.category == some c) := by
  cases hcat : (r.category == some c) with
  | false => simp [incRow, hcat]
  | true =>
    have hr : r.category = some c := by simpa using hcat
    have hcontains : excl.contains c = false := by simpa using hx
    simp [incRow, hcat, hr, categoryIncluded, hc, hcontains, hx]

/-- The category set accumulated by the year loop over the whole table. -/
def ingestCats (excl : List String) (t : CsvTable) : List (Option String) :=
  (ingestYears t).foldl (fun cs y =>
    (t.rows.filter (fun r => yearOf r.month == y)).foldl (catStep excl) cs) []

theorem processYears_ingest (excl : List String) (t : CsvTable)
    (hnum : ∀ r ∈ t.rows, r.amount ≠ AmountCell.malformed) :
    processYears excl true true t.rows (ingestYears t) []
      = some (ingestCats excl t,
              (ingestYears t).map (fun y => (y, yearTotals excl t.rows y))) :=
  processYears_eq excl t.rows hnum (ingestYears t) []

theorem process_file_success_shape (excl : List String) (s : AppState) (t : CsvTable)
    (hm : t.hasMonthCol = true) (hcol : t.hasCategoryCol = true)
    (hamt : t.hasAmountCol = true)
    (hcats : ∀ r ∈ t.rows, (r.category).isSome = true)
    (hnum : ∀ r ∈ t.rows, r.amount ≠ AmountCell.malformed) :
    process_file excl s t
      = (⟨ingestYears t, sortAscBy optLe (ingestCats excl t),
          (ingestYears t).map (fun y => (y, yearTotals excl t.rows y))⟩, true) := by
  have hallsome : ∀ c ∈ ingestCats excl t, c.isSome = true :=
    yearsFold_cats_isSome excl t.rows hcats (ingestYears t) [] (by simp)
  have hnc : (ingestCats excl t).contains none = false := by
    cases hcn : (ingestCats excl t).contains (none : Option String) with
    | false => rfl
    | true =>
      have hmem2 : (none : Option String) ∈ ingestCats excl t := by simpa using hcn
      have h3 := hallsome none hmem2
      simp at h3
  have hcond : ((ingestCats excl t).contains none
      && (ingestCats excl t).any (fun c => c.isSome)) = false := by
    rw [hnc, Bool.false_and]
  have hsorted : sortedCategories (ingestCats excl t)
      = some (sortAscBy optLe (ingestCats excl t)) := by
    unfold sortedCategories
    rw [hcond]
    rfl
  unfold process_file
  rw [hm]
  simp only [if_true]
  rw [hcol, hamt, processYears_ingest excl t hnum]
  dsimp only
  rw [hsorted]

/-- C6 (amended): on a table whose three required columns are present,
whose category cells are present and whose amounts parse (numeric or
missing), ingestion succeeds; the committed totals are indexed by the
first four characters of the month field; every non-empty, non-excluded
category with a row in a year is summed there (a missing amount counting
as `0`); and rows with an empty or excluded category are dropped — such a
category appears in no committed year dict. -/
theorem aggregation_by_year_category (excl : List String) (s : AppState) (t : CsvTable)
    (hm : t.hasMonthCol = true) (hcol : t.hasCategoryCol = true)
    (hamt : t.hasAmountCol = true)
    (hcats : ∀ r ∈ t.rows, (r.category).isSome = true)
    (hnum : ∀ r ∈ t.rows, r.amount ≠ AmountCell.malformed) :
    (process_file excl s t).2 = true ∧
    (∀ (y c : String), ¬(c = "") → ¬(c ∈ excl) →
      (∃ r ∈ t.rows, yearOf r.month = y ∧ r.category = some c) →
      ∃ totals, dictLookup y (process_file excl s t).1.spending_data = some totals ∧
        dictLookup (some c) totals = some (specCellTotal t.rows y c)) ∧
    (∀ (y : String) (totals : List (Option String × ℚ)),
      dictLookup y (process_file excl s t).1.spending_data = some totals →
      ∀ (c : String), c = "" ∨ c ∈ excl → dictLookup (some c) totals = none) := by
  have hpf := process_file_success_shape excl s t hm hcol hamt hcats hnum
  refine ⟨by rw [hpf], ?_, ?_⟩
  · rintro y c hc hx ⟨r, hrmem, hry, hrc⟩
    rw [hpf]
    dsimp only
    have hymem : y ∈ ingestYears t := by
      rw [ingestYears, mem_sortAscBy, List.mem_dedup, ← hry]
      exact List.mem_map_of_mem _ hrmem
    refine ⟨yearTotals excl t.rows y, ?_, ?_⟩
    · rw [dictLookup_map_pair, if_pos hymem]
    · have hrfil : r ∈ t.rows.filter (fun r => yearOf r.month == y) :=
        List.mem_filter.mpr ⟨hrmem, by simp [hry]⟩
      have hany : (t.rows.filter (fun r => yearOf r.month == y)).any
          (incRow excl (some c)) = true := by
        apply List.any_eq_true.mpr
        exact ⟨r, hrfil, by rw [incRow_eq excl c hc hx]; simp [hrc]⟩
      rw [yearTotals, totStep_fold_lookup_none excl (some c) _ [] rfl, hany]
      simp only [if_true]
      have hfe : (t.rows.filter (fun r => yearOf r.month == y)).filter
            (incRow excl (some c))
          = t.rows.filter (fun r => yearOf r.month == y && r.category == some c) := by
        rw [List.filter_filter]
        apply List.filter_congr
        intro a _
        rw [incRow_eq excl c hc hx a]
        exact Bool.and_comm _ _
      unfold sumInc specCellTotal
      rw [hfe]
  · intro y totals hlook c hbad
    rw [hpf] at hlook
    dsimp only at hlook
    rw [dictLookup_map_pair] at hlook
    by_cases hy : y ∈ ingestYears t
    · rw [if_pos hy] at hlook
      have htot : totals = yearTotals excl t.rows y := by
        injection hlook with h2
        exact h2.symm
      subst htot
      have hCI : categoryIncluded excl (some c) = false := by
        rcases hbad with hbad | hbad
        · simp [categoryIncluded, hbad]
        · have h4 : excl.contains c = true := by simpa using hbad
          show (!(c == "") && !(excl.contains c)) = false
          rw [h4, Bool.not_true, Bool.and_false]
      have hanyf : (t.rows.filter (fun r => yearOf r.month == y)).any
          (incRow excl (some c)) = false := by
        simp only [List.any_eq_false]
        intro r hrf
        cases hcat : (r.category == some c) with
        | false => simp [incRow, hcat]
        | true =>
          have hr5 : r.category = some c := by simpa using hcat
          simp [incRow, hcat, hr5, hCI]
      rw [yearTotals, totStep_fold_lookup_none excl (some c) _ [] rfl, hanyf]
      simp
    · rw [if_neg hy] at hlook
      cases hlook

theorem aggregation_by_year_category_witness :
    (process_file [] ⟨[], [], []⟩
        ⟨true, true, true,
          [⟨"2024-01", some "Food", AmountCell.num 50⟩,
           ⟨"2024-02", some "Food", AmountCell.missing⟩]⟩).2 = true ∧
    ∃ totals, dictLookup "2024"
        (process_file [] ⟨[], [], []⟩
          ⟨true, true, true,
            [⟨"2024-01", some "Food", AmountCell.num 50⟩,
             ⟨"2024-02", some "Food", AmountCell.missing⟩]⟩).1.spending_data
        = some totals ∧
      dictLookup (some "Food") totals
        = some (specCellTotal
            [⟨"2024-01", some "Food", AmountCell.num 50⟩,
             ⟨"2024-02", some "Food", AmountCell.missing⟩] "2024" "Food") :=
  ⟨(aggregation_by_year_category [] ⟨[], [], []⟩
      ⟨true, true, true,
        [⟨"2024-01", some "Food", AmountCell.num 50⟩,
         ⟨"2024-02", some "Food", AmountCell.missing⟩]⟩
      rfl rfl rfl (by decide) (by decide)).1,
   (aggregation_by_year_category [] ⟨[], [], []⟩
      ⟨true, true, true,
        [⟨"2024-01", some "Food", AmountCell.num 50⟩,
         ⟨"2024-02", some "Food", AmountCell.missing⟩]⟩
      rfl rfl rfl (by decide) (by decide)).2.1 "2024" "Food"
      (by decide) (by decide)
      ⟨⟨"2024-01", some "Food", AmountCell.num 50⟩, by decide, by decide, rfl⟩⟩

end BudgetTracker
